import Mathlib

/-!
A shallow embedding of the ReserveX frontend's booking & availability engine.

The definitions below translate, as directly as possible, the TypeScript
sources of the repository:

* `src/app/lib/database.ts` — the localStorage-backed `Database` class and
  the in-memory `MockDatabase` class (restaurants, bookings, reviews,
  favourites, seat availability, rating aggregation);
* `src/app/services/booking.service.ts` — the fallback (backend-unavailable)
  paths of `BookingService`;
* `src/app/services/review.service.ts` — the fallback paths of `ReviewService`;
* the favourite service — the fallback paths of `FavouriteService`;
* the restaurant service — the fallback path of
  `RestaurantService.getAvailableSeats`;
* `src/app/services/demo-data.ts` — the bundled seed dataset.

Modelling conventions: JavaScript numbers are `ℚ` where fractional values
occur (ratings) and `ℤ` where the program only ever does integer arithmetic
(seat counts); ISO timestamps are modelled as epoch milliseconds (`ℕ`), which
is exactly the value `new Date(s).getTime()` yields and the value every
comparator in the sources sorts by; `Date.now()` / `new Date()` is passed in
explicitly as a `now : ℕ` argument; `Math.random()`-derived values are passed
in as an explicit `rand : ℕ` argument; `localStorage` collections are the
explicit list-valued state threaded through each operation; a thrown
`Error(msg)` is `Except.error msg`.
-/

namespace ReserveX

/-- JavaScript `Math.round`: round half up, `⌊x + 0.5⌋`. -/
def jsRound (q : ℚ) : ℤ := ⌊q + 1/2⌋

/-- Booking status union type
`'pending' | 'confirmed' | 'completed' | 'cancelled'`. -/
inductive BookingStatus where
  | pending
  | confirmed
  | completed
  | cancelled
  deriving Repr, DecidableEq

/-- The populated `booking.restaurant` sub-record of the service-layer
`Booking` interface. -/
structure RestaurantRef where
  id : String
  name : String
  image : String
  location : String
  deriving Repr, DecidableEq

/-- The populated `review.restaurant` sub-record of the service-layer
`Review` interface. -/
structure ReviewRestaurantRef where
  id : String
  name : String
  image : String
  deriving Repr, DecidableEq

/-- The populated `favourite.restaurant` sub-record of the service-layer
`Favourite` interface. -/
structure FavRestaurantRef where
  id : String
  name : String
  cuisine : String
  image : String
  rating : ℚ
  location : String
  priceRange : String
  deriving Repr, DecidableEq

/-- Source `User` (auth.service.ts). -/
structure User where
  id : String
  email : String
  name : String
  role : String
  profileImage : Option String
  phone : Option String
  createdAt : Nat
  deriving Repr, DecidableEq

/-- Source `Restaurant` (restaurant.service.ts / database.ts). -/
structure Restaurant where
  id : String
  name : String
  cuisine : String
  location : String
  city : String
  division : String
  country : String
  description : String
  image : String
  rating : ℚ
  totalReviews : ℤ
  openingTime : String
  closingTime : String
  totalSeats : ℤ
  priceRange : String
  phone : String
  managerId : Option String
  status : String
  createdAt : Nat
  deriving Repr, DecidableEq

/-- Source `Booking` (booking.service.ts / database.ts). -/
structure Booking where
  id : String
  restaurantId : String
  userId : String
  date : String
  timeSlot : String
  seats : ℤ
  status : BookingStatus
  customerName : String
  customerEmail : String
  customerPhone : String
  specialRequests : Option String
  createdAt : Nat
  updatedAt : Nat
  restaurant : Option RestaurantRef
  deriving Repr, DecidableEq

/-- Source `Review` (review.service.ts / database.ts). -/
structure Review where
  id : String
  restaurantId : String
  userId : String
  userName : String
  userImage : Option String
  rating : ℚ
  comment : String
  createdAt : Nat
  restaurant : Option ReviewRestaurantRef
  deriving Repr, DecidableEq

/-- Source `Favourite` (favourite service / database.ts). -/
structure Favourite where
  id : String
  userId : String
  restaurantId : String
  createdAt : Nat
  restaurant : Option FavRestaurantRef
  deriving Repr, DecidableEq

/-- Source `CreateBookingData` (booking.service.ts). -/
structure CreateBookingData where
  restaurantId : String
  date : String
  timeSlot : String
  seats : ℤ
  customerName : String
  customerEmail : String
  customerPhone : String
  specialRequests : Option String
  deriving Repr, DecidableEq

/-- Source `CreateReviewData` (review.service.ts). -/
structure CreateReviewData where
  restaurantId : String
  rating : ℚ
  comment : String
  deriving Repr, DecidableEq

/-! ### Seed dataset (demo-data.ts)

String fields that play no role in any claim (image URLs, long descriptions)
are copied from the source; timestamps are the epoch-millisecond values of
the corresponding `new Date(...).toISOString()` constants. -/

/-- Source `DEMO_USERS` (demo-data.ts). -/
def DEMO_USERS : List User := [
  { id := "user-customer-1", email := "customer@demo.com", name := "Rakib Hassan",
    role := "customer", phone := some "+880 1711-999001",
    profileImage := some "https://images.unsplash.com/photo-1500648767791-00dcc994a43e?w=200&q=80",
    createdAt := 1705276800000 },
  { id := "user-customer-2", email := "customer2@demo.com", name := "Fatima Ahmed",
    role := "customer", phone := some "+880 1711-999002",
    profileImage := some "https://images.unsplash.com/photo-1494790108377-be9c29b29330?w=200&q=80",
    createdAt := 1706745600000 },
  { id := "user-manager-1", email := "manager@demo.com", name := "Karim Rahman",
    role := "manager", phone := some "+880 1711-999003",
    profileImage := some "https://images.unsplash.com/photo-1507003211169-0a1dd7228f2d?w=200&q=80",
    createdAt := 1701388800000 },
  { id := "user-admin-1", email := "admin@demo.com", name := "System Admin",
    role := "admin", phone := some "+880 1711-999000",
    profileImage := some "https://images.unsplash.com/photo-1472099645785-5658abf4ff4e?w=200&q=80",
    createdAt := 1696118400000 }]

/-- Source `DEMO_RESTAURANTS` (demo-data.ts): the ten bundled restaurants. -/
def DEMO_RESTAURANTS : List Restaurant := [
  { id := "rest-1", name := "Aurora", cuisine := "Continental",
    location := "Shaheb Bazar, Rajshahi", city := "Rajshahi", division := "Rajshahi",
    country := "Bangladesh",
    description := "Aurora is a premium continental dining restaurant in Rajshahi offering fine dining experience with modern ambiance and fresh ingredients.",
    image := "https://images.unsplash.com/photo-1517248135467-4c7edcad34c4?w=800&q=80",
    rating := 4.8, totalReviews := 124, openingTime := "11:00 AM", closingTime := "11:00 PM",
    totalSeats := 50, priceRange := "৳৳৳", phone := "+880 1711-123456",
    managerId := some "user-manager-1", status := "active", createdAt := 1698796800000 },
  { id := "rest-2", name := "Helium", cuisine := "Fusion",
    location := "Alokar Mor, Rajshahi", city := "Rajshahi", division := "Rajshahi",
    country := "Bangladesh",
    description := "Helium brings you an innovative fusion dining experience, combining Asian and Western cuisines in a contemporary setting.",
    image := "https://images.unsplash.com/photo-1552566626-52f8b828add9?w=800&q=80",
    rating := 4.6, totalReviews := 89, openingTime := "12:00 PM", closingTime := "10:30 PM",
    totalSeats := 40, priceRange := "৳৳", phone := "+880 1711-123457",
    managerId := some "user-manager-1", status := "active", createdAt := 1700006400000 },
  { id := "rest-3", name := "Calisto", cuisine := "Italian",
    location := "Laxmipur, Rajshahi", city := "Rajshahi", division := "Rajshahi",
    country := "Bangladesh",
    description := "Authentic Italian cuisine in the heart of Rajshahi. Calisto offers handmade pasta, wood-fired pizzas, and classic Italian desserts.",
    image := "https://images.unsplash.com/photo-1414235077428-338989a2e8c0?w=800&q=80",
    rating := 4.7, totalReviews := 156, openingTime := "1:00 PM", closingTime := "11:00 PM",
    totalSeats := 45, priceRange := "৳৳৳", phone := "+880 1711-123458",
    managerId := none, status := "active", createdAt := 1697760000000 },
  { id := "rest-4", name := "Chillox", cuisine := "Fast Food",
    location := "Ghoda Mara, Rajshahi", city := "Rajshahi", division := "Rajshahi",
    country := "Bangladesh",
    description := "Your favorite fast food destination! Chillox serves up delicious burgers, wraps, and shakes in a vibrant, casual setting.",
    image := "https://images.unsplash.com/photo-1555939594-58d7cb561ad1?w=800&q=80",
    rating := 4.3, totalReviews := 201, openingTime := "10:00 AM", closingTime := "12:00 AM",
    totalSeats := 60, priceRange := "৳", phone := "+880 1711-123459",
    managerId := none, status := "active", createdAt := 1704412800000 },
  { id := "rest-5", name := "Pizza Burg", cuisine := "Pizza & Burger",
    location := "C&B Mor, Rajshahi", city := "Rajshahi", division := "Rajshahi",
    country := "Bangladesh",
    description := "Specializing in gourmet pizzas and premium burgers, Pizza Burg combines quality ingredients with creative recipes.",
    image := "https://images.unsplash.com/photo-1513104890138-7c749659a591?w=800&q=80",
    rating := 4.5, totalReviews := 178, openingTime := "11:00 AM", closingTime := "11:30 PM",
    totalSeats := 55, priceRange := "৳৳", phone := "+880 1711-123460",
    managerId := none, status := "active", createdAt := 1702166400000 },
  { id := "rest-6", name := "Kebab House", cuisine := "Mughlai",
    location := "Station Road, Rajshahi", city := "Rajshahi", division := "Rajshahi",
    country := "Bangladesh",
    description := "Experience the rich heritage of Mughlai cuisine at Kebab House. We serve traditional kebabs, biryanis, and curries.",
    image := "https://images.unsplash.com/photo-1599487488170-d11ec9c172f0?w=800&q=80",
    rating := 4.6, totalReviews := 143, openingTime := "12:00 PM", closingTime := "11:00 PM",
    totalSeats := 48, priceRange := "৳৳", phone := "+880 1711-123461",
    managerId := none, status := "active", createdAt := 1700870400000 },
  { id := "rest-7", name := "Kudos", cuisine := "Chinese",
    location := "Sapura, Rajshahi", city := "Rajshahi", division := "Rajshahi",
    country := "Bangladesh",
    description := "Kudos brings authentic Chinese flavors to Rajshahi with a menu featuring dim sum, noodles, and traditional wok dishes.",
    image := "https://images.unsplash.com/photo-1525755662778-989d0524087e?w=800&q=80",
    rating := 4.4, totalReviews := 112, openingTime := "12:00 PM", closingTime := "10:00 PM",
    totalSeats := 42, priceRange := "৳৳", phone := "+880 1711-123462",
    managerId := none, status := "active", createdAt := 1705708800000 },
  { id := "rest-8", name := "North Burg", cuisine := "Burger",
    location := "Binodpur, Rajshahi", city := "Rajshahi", division := "Rajshahi",
    country := "Bangladesh",
    description := "North Burg is your go-to spot for juicy, handcrafted burgers. We use 100% pure beef and fresh ingredients.",
    image := "https://images.unsplash.com/photo-1571091718767-18b5b1457add?w=800&q=80",
    rating := 4.5, totalReviews := 167, openingTime := "11:00 AM", closingTime := "11:00 PM",
    totalSeats := 50, priceRange := "৳", phone := "+880 1711-123463",
    managerId := none, status := "active", createdAt := 1702598400000 },
  { id := "rest-9", name := "Backyard Kitchen", cuisine := "BBQ",
    location := "Boalia, Rajshahi", city := "Rajshahi", division := "Rajshahi",
    country := "Bangladesh",
    description := "Backyard Kitchen offers a rustic BBQ experience with smoked meats, grilled specialties, and live outdoor cooking.",
    image := "https://images.unsplash.com/photo-1544025162-d76694265947?w=800&q=80",
    rating := 4.7, totalReviews := 134, openingTime := "5:00 PM", closingTime := "12:00 AM",
    totalSeats := 38, priceRange := "৳৳৳", phone := "+880 1711-123464",
    managerId := none, status := "active", createdAt := 1698624000000 },
  { id := "rest-10", name := "Hideout", cuisine := "Café",
    location := "Talaimari, Rajshahi", city := "Rajshahi", division := "Rajshahi",
    country := "Bangladesh",
    description := "A cozy café hideaway perfect for coffee lovers, book readers, and those seeking a peaceful ambiance.",
    image := "https://images.unsplash.com/photo-1445116572660-236099ec97a0?w=800&q=80",
    rating := 4.6, totalReviews := 98, openingTime := "8:00 AM", closingTime := "10:00 PM",
    totalSeats := 35, priceRange := "৳৳", phone := "+880 1711-123465",
    managerId := none, status := "active", createdAt := 1704844800000 }]

/-- Source `DEMO_BOOKINGS` (demo-data.ts). -/
def DEMO_BOOKINGS : List Booking := [
  { id := "booking-1", restaurantId := "rest-1", userId := "user-customer-1",
    date := "2024-02-25", timeSlot := "7:00 PM", seats := 4, status := .confirmed,
    customerName := "Rakib Hassan", customerEmail := "customer@demo.com",
    customerPhone := "+880 1711-999001", specialRequests := some "Window seat please",
    createdAt := 1707523200000, updatedAt := 1707523200000,
    restaurant := some {
      id := "rest-1", name := "Aurora",
      image := "https://images.unsplash.com/photo-1517248135467-4c7edcad34c4?w=800&q=80",
      location := "Shaheb Bazar, Rajshahi" } },
  { id := "booking-2", restaurantId := "rest-3", userId := "user-customer-1",
    date := "2024-02-22", timeSlot := "8:00 PM", seats := 2, status := .pending,
    customerName := "Rakib Hassan", customerEmail := "customer@demo.com",
    customerPhone := "+880 1711-999001", specialRequests := some "Anniversary dinner",
    createdAt := 1707955200000, updatedAt := 1707955200000,
    restaurant := some {
      id := "rest-3", name := "Calisto",
      image := "https://images.unsplash.com/photo-1414235077428-338989a2e8c0?w=800&q=80",
      location := "Laxmipur, Rajshahi" } },
  { id := "booking-3", restaurantId := "rest-5", userId := "user-customer-1",
    date := "2024-02-18", timeSlot := "6:30 PM", seats := 6, status := .completed,
    customerName := "Rakib Hassan", customerEmail := "customer@demo.com",
    customerPhone := "+880 1711-999001", specialRequests := none,
    createdAt := 1707091200000, updatedAt := 1708214400000,
    restaurant := some {
      id := "rest-5", name := "Pizza Burg",
      image := "https://images.unsplash.com/photo-1513104890138-7c749659a591?w=800&q=80",
      location := "C&B Mor, Rajshahi" } },
  { id := "booking-4", restaurantId := "rest-9", userId := "user-customer-2",
    date := "2024-02-23", timeSlot := "7:30 PM", seats := 5, status := .confirmed,
    customerName := "Fatima Ahmed", customerEmail := "customer2@demo.com",
    customerPhone := "+880 1711-999002",
    specialRequests := some "Outdoor seating if available",
    createdAt := 1707696000000, updatedAt := 1707782400000,
    restaurant := some {
      id := "rest-9", name := "Backyard Kitchen",
      image := "https://images.unsplash.com/photo-1544025162-d76694265947?w=800&q=80",
      location := "Boalia, Rajshahi" } },
  { id := "booking-5", restaurantId := "rest-2", userId := "user-customer-1",
    date := "2024-02-15", timeSlot := "8:00 PM", seats := 3, status := .cancelled,
    customerName := "Rakib Hassan", customerEmail := "customer@demo.com",
    customerPhone := "+880 1711-999001", specialRequests := none,
    createdAt := 1706745600000, updatedAt := 1707350400000,
    restaurant := some {
      id := "rest-2", name := "Helium",
      image := "https://images.unsplash.com/photo-1552566626-52f8b828add9?w=800&q=80",
      location := "Alokar Mor, Rajshahi" } }]

/-- Source `DEMO_REVIEWS` (demo-data.ts). -/
def DEMO_REVIEWS : List Review := [
  { id := "review-1", restaurantId := "rest-1", userId := "user-customer-1",
    userName := "Rakib Hassan",
    userImage := some "https://images.unsplash.com/photo-1500648767791-00dcc994a43e?w=200&q=80",
    rating := 5,
    comment := "Excellent food and service! The beef tenderloin was cooked to perfection. Highly recommended for special occasions.",
    createdAt := 1706745600000,
    restaurant := some {
      id := "rest-1", name := "Aurora",
      image := "https://images.unsplash.com/photo-1517248135467-4c7edcad34c4?w=800&q=80" } },
  { id := "review-2", restaurantId := "rest-1", userId := "user-customer-2",
    userName := "Fatima Ahmed",
    userImage := some "https://images.unsplash.com/photo-1494790108377-be9c29b29330?w=200&q=80",
    rating := 4,
    comment := "Great ambiance and delicious food. The only downside was a bit of wait time during peak hours.",
    createdAt := 1706400000000,
    restaurant := some {
      id := "rest-1", name := "Aurora",
      image := "https://images.unsplash.com/photo-1517248135467-4c7edcad34c4?w=800&q=80" } },
  { id := "review-3", restaurantId := "rest-3", userId := "user-customer-1",
    userName := "Rakib Hassan",
    userImage := some "https://images.unsplash.com/photo-1500648767791-00dcc994a43e?w=200&q=80",
    rating := 5,
    comment := "Best Italian restaurant in Rajshahi! The pasta was authentic and the tiramisu was heavenly.",
    createdAt := 1707091200000,
    restaurant := some {
      id := "rest-3", name := "Calisto",
      image := "https://images.unsplash.com/photo-1414235077428-338989a2e8c0?w=800&q=80" } },
  { id := "review-4", restaurantId := "rest-5", userId := "user-customer-2",
    userName := "Fatima Ahmed",
    userImage := some "https://images.unsplash.com/photo-1494790108377-be9c29b29330?w=200&q=80",
    rating := 4,
    comment := "Good quality pizza and burgers at reasonable prices. Great for family dining.",
    createdAt := 1706918400000,
    restaurant := some {
      id := "rest-5", name := "Pizza Burg",
      image := "https://images.unsplash.com/photo-1513104890138-7c749659a591?w=800&q=80" } },
  { id := "review-5", restaurantId := "rest-9", userId := "user-customer-1",
    userName := "Rakib Hassan",
    userImage := some "https://images.unsplash.com/photo-1500648767791-00dcc994a43e?w=200&q=80",
    rating := 5,
    comment := "Amazing BBQ experience! The outdoor setting and live cooking add to the atmosphere. Must try the smoked ribs!",
    createdAt := 1706572800000,
    restaurant := some {
      id := "rest-9", name := "Backyard Kitchen",
      image := "https://images.unsplash.com/photo-1544025162-d76694265947?w=800&q=80" } }]

/-- Source `DEMO_FAVOURITES` (demo-data.ts). -/
def DEMO_FAVOURITES : List Favourite := [
  { id := "fav-1", userId := "user-customer-1", restaurantId := "rest-1",
    createdAt := 1705708800000,
    restaurant := some {
      id := "rest-1", name := "Aurora", cuisine := "Continental",
      image := "https://images.unsplash.com/photo-1517248135467-4c7edcad34c4?w=800&q=80",
      rating := 4.8, location := "Shaheb Bazar, Rajshahi", priceRange := "৳৳৳" } },
  { id := "fav-2", userId := "user-customer-1", restaurantId := "rest-3",
    createdAt := 1706140800000,
    restaurant := some {
      id := "rest-3", name := "Calisto", cuisine := "Italian",
      image := "https://images.unsplash.com/photo-1414235077428-338989a2e8c0?w=800&q=80",
      rating := 4.7, location := "Laxmipur, Rajshahi", priceRange := "৳৳৳" } },
  { id := "fav-3", userId := "user-customer-1", restaurantId := "rest-9",
    createdAt := 1706745600000,
    restaurant := some {
      id := "rest-9", name := "Backyard Kitchen", cuisine := "BBQ",
      image := "https://images.unsplash.com/photo-1544025162-d76694265947?w=800&q=80",
      rating := 4.7, location := "Boalia, Rajshahi", priceRange := "৳৳৳" } },
  { id := "fav-4", userId := "user-customer-2", restaurantId := "rest-10",
    createdAt := 1707091200000,
    restaurant := some {
      id := "rest-10", name := "Hideout", cuisine := "Café",
      image := "https://images.unsplash.com/photo-1445116572660-236099ec97a0?w=800&q=80",
      rating := 4.6, location := "Talaimari, Rajshahi", priceRange := "৳৳" } }]

/-- Source `getDemoBookingsByUserId` (demo-data.ts). -/
def getDemoBookingsByUserId (userId : String) : List Booking :=
  DEMO_BOOKINGS.filter (fun booking => decide (booking.userId = userId))

/-- Source `getDemoReviewsByRestaurantId` (demo-data.ts). -/
def getDemoReviewsByRestaurantId (restaurantId : String) : List Review :=
  DEMO_REVIEWS.filter (fun review => decide (review.restaurantId = restaurantId))

/-- Source `getDemoFavouritesByUserId` (demo-data.ts). -/
def getDemoFavouritesByUserId (userId : String) : List Favourite :=
  DEMO_FAVOURITES.filter (fun fav => decide (fav.userId = userId))

/-- Source `isDemoFavourite` (demo-data.ts). -/
def isDemoFavourite (userId restaurantId : String) : Bool :=
  DEMO_FAVOURITES.any (fun fav =>
    decide (fav.userId = userId) && decide (fav.restaurantId = restaurantId))

/-! ### First-match array mutation helpers

`Array.prototype.findIndex` followed by an in-place assignment at the found
index (`arr[index] = f(arr[index])`), and `Array.prototype.splice(index, 1)`,
are modelled by the following list transformers. -/

/-- Replace the FIRST element satisfying `p` by its image under `f`
(`findIndex` + in-place update); `none` when no element matches
(`findIndex === -1`). Returns the updated element together with the
updated list. -/
def setFirst (p : α → Bool) (f : α → α) : List α → Option (α × List α)
  | [] => none
  | x :: xs =>
    if p x then some (f x, f x :: xs)
    else
      match setFirst p f xs with
      | none => none
      | some (y, ys) => some (y, x :: ys)

/-- Remove the FIRST element satisfying `p` (`findIndex` + `splice(i, 1)`). -/
def removeFirst (p : α → Bool) : List α → List α
  | [] => []
  | x :: xs => if p x then xs else x :: removeFirst p xs

/-! ### The `Database` class (src/app/lib/database.ts, localStorage-backed)

The localStorage collections are gathered in a `DBState`; each mutating
method returns its result together with the successor state. -/

/-- The five localStorage collections behind the `Database` class. -/
structure DBState where
  users : List User
  restaurants : List Restaurant
  bookings : List Booking
  reviews : List Review
  favourites : List Favourite
  deriving Repr, DecidableEq

/-- Input of `Database.createBooking`
(`Omit<Booking, 'id' | 'createdAt' | 'updatedAt'>`). -/
structure BookingData where
  restaurantId : String
  userId : String
  date : String
  timeSlot : String
  seats : ℤ
  status : BookingStatus
  customerName : String
  customerEmail : String
  customerPhone : String
  specialRequests : Option String
  restaurant : Option RestaurantRef
  deriving Repr, DecidableEq

/-- Input of `Database.createReview` (`Omit<Review, 'id' | 'createdAt'>`). -/
structure ReviewData where
  restaurantId : String
  userId : String
  userName : String
  userImage : Option String
  rating : ℚ
  comment : String
  restaurant : Option ReviewRestaurantRef
  deriving Repr, DecidableEq

namespace Database

/-- Source `Database.getRestaurantById`. -/
def getRestaurantById (st : DBState) (id : String) : Option Restaurant :=
  st.restaurants.find? (fun r => decide (r.id = id))

/-- Source `Database.getAvailableSeats` (database.ts lines 774–787): seats of
`confirmed`-or-`pending` bookings for the key, subtracted from `totalSeats`
— note: NOT clamped at zero. Unknown restaurant yields `0`. -/
def getAvailableSeats (st : DBState) (restaurantId date timeSlot : String) : ℤ :=
  match getRestaurantById st restaurantId with
  | none => 0
  | some restaurant =>
    let confirmedBookings := st.bookings.filter (fun b =>
      decide (b.restaurantId = restaurantId) && decide (b.date = date) &&
      decide (b.timeSlot = timeSlot) &&
      (decide (b.status = .confirmed) || decide (b.status = .pending)))
    let bookedSeats := confirmedBookings.foldl (fun sum b => sum + b.seats) 0
    restaurant.totalSeats - bookedSeats

/-- Source `Database.createBooking`: pushes a fresh booking; performs NO capacity
check of any kind. -/
def createBooking (st : DBState) (booking : BookingData) (now : Nat) :
    Booking × DBState :=
  let newBooking : Booking := {
    id := s!"booking-{now}",
    restaurantId := booking.restaurantId, userId := booking.userId,
    date := booking.date, timeSlot := booking.timeSlot, seats := booking.seats,
    status := booking.status,
    customerName := booking.customerName, customerEmail := booking.customerEmail,
    customerPhone := booking.customerPhone,
    specialRequests := booking.specialRequests,
    createdAt := now, updatedAt := now, restaurant := booking.restaurant }
  (newBooking, { st with bookings := st.bookings ++ [newBooking] })

/-- Source `Database.getReviewsByRestaurant`. -/
def getReviewsByRestaurant (st : DBState) (restaurantId : String) : List Review :=
  st.reviews.filter (fun r => decide (r.restaurantId = restaurantId))

/-- The in-place assignment performed by `Database.updateRestaurantRating`
at the found index: recompute `rating` and `totalReviews` from the complete
current review set of the restaurant
(`avgRating = reviews.reduce(..) / totalReviews`,
`rating = Math.round(avgRating * 10) / 10`). -/
def ratingUpdater (st : DBState) (restaurantId : String) :
    Restaurant → Restaurant := fun r =>
  let reviews := getReviewsByRestaurant st restaurantId
  let totalReviews := reviews.length
  let avgRating : ℚ :=
    if totalReviews > 0 then
      (reviews.foldl (fun sum v => sum + v.rating) 0) / totalReviews
    else 0
  { r with
    rating := (jsRound (avgRating * 10) : ℚ) / 10,
    totalReviews := (totalReviews : ℤ) }

/-- Source `Database.updateRestaurantRating` (database.ts lines 832–847): apply
`ratingUpdater` at the restaurant found by `findIndex`; no-op when the
restaurant is unknown (`findIndex === -1`). -/
def updateRestaurantRating (st : DBState) (restaurantId : String) : DBState :=
  match setFirst (fun r => decide (r.id = restaurantId))
      (ratingUpdater st restaurantId) st.restaurants with
  | none => st
  | some (_, restaurants') => { st with restaurants := restaurants' }

/-- Source `Database.createReview`: push the review, then re-aggregate the owning
restaurant's rating. -/
def createReview (st : DBState) (review : ReviewData) (now : Nat) :
    Review × DBState :=
  let newReview : Review := {
    id := s!"review-{now}",
    restaurantId := review.restaurantId, userId := review.userId,
    userName := review.userName, userImage := review.userImage,
    rating := review.rating, comment := review.comment,
    createdAt := now, restaurant := review.restaurant }
  let st' := { st with reviews := st.reviews ++ [newReview] }
  (newReview, updateRestaurantRating st' review.restaurantId)

/-- Source `Database.deleteReview`: drop the review (when present), then
re-aggregate the owning restaurant's rating; `false` when the id is
unknown. -/
def deleteReview (st : DBState) (id : String) : Bool × DBState :=
  match st.reviews.find? (fun r => decide (r.id = id)) with
  | none => (false, st)
  | some review =>
    let st' := { st with reviews := st.reviews.filter (fun r => !decide (r.id = id)) }
    (true, updateRestaurantRating st' review.restaurantId)

/-- Source `Database.isFavourite`. -/
def isFavourite (st : DBState) (userId restaurantId : String) : Bool :=
  st.favourites.any (fun f =>
    decide (f.userId = userId) && decide (f.restaurantId = restaurantId))

/-- Source `Database.toggleFavourite` (database.ts lines 864–887): splice the
existing record out (returning `false`), or push a fresh one (returning
`true`). -/
def toggleFavourite (st : DBState) (userId restaurantId : String) (now : Nat) :
    Bool × DBState :=
  let pair := fun (f : Favourite) =>
    decide (f.userId = userId) && decide (f.restaurantId = restaurantId)
  match st.favourites.findIdx? pair with
  | some _ =>
    (false, { st with favourites := removeFirst pair st.favourites })
  | none =>
    let newFavourite : Favourite := {
      id := s!"fav-{now}", userId := userId, restaurantId := restaurantId,
      createdAt := now, restaurant := none }
    (true, { st with favourites := st.favourites ++ [newFavourite] })

end Database

/-! ### The `MockDatabase` class (second half of database.ts) -/

/-- Source `Restaurant` as declared for the `MockDatabase` (different shape from the
service-layer `Restaurant`). -/
structure MockRestaurant where
  id : String
  ownerId : String
  name : String
  division : String
  city : String
  country : String
  address : String
  description : String
  image : String
  cuisine : String
  totalSeats : ℤ
  rating : ℚ
  price : String
  status : String
  available : Bool
  location : String
  deriving Repr, DecidableEq

/-- Source `Booking` as declared for the `MockDatabase` (`guests`, no `updatedAt`,
compat fields). -/
structure MockBooking where
  id : String
  userId : String
  restaurantId : String
  date : String
  timeSlot : String
  guests : ℤ
  status : BookingStatus
  createdAt : Nat
  restaurantName : Option String
  restaurantImage : Option String
  time : Option String
  deriving Repr, DecidableEq

/-- Input of `MockDatabase.createBooking`
(`Omit<Booking, 'id' | 'createdAt' | 'status'>`, compat fields dropped). -/
structure MockBookingData where
  userId : String
  restaurantId : String
  date : String
  timeSlot : String
  guests : ℤ
  deriving Repr, DecidableEq

/-- The in-memory state of the `MockDatabase`. -/
structure MockState where
  restaurants : List MockRestaurant
  bookings : List MockBooking
  deriving Repr, DecidableEq

namespace MockDatabase

/-- Source `MockDatabase.getRestaurant`. -/
def getRestaurant (st : MockState) (id : String) : Option MockRestaurant :=
  st.restaurants.find? (fun r => decide (r.id = id))

/-- Source `MockDatabase.getAvailableSeats` (database.ts lines 1345–1358): only
`confirmed` bookings are counted, and the result IS clamped at zero.
Unknown restaurant yields `0`. -/
def getAvailableSeats (st : MockState) (restaurantId date timeSlot : String) : ℤ :=
  match getRestaurant st restaurantId with
  | none => 0
  | some restaurant =>
    let existingBookings := st.bookings.filter (fun b =>
      decide (b.restaurantId = restaurantId) && decide (b.date = date) &&
      decide (b.timeSlot = timeSlot) && decide (b.status = .confirmed))
    let bookedSeats := existingBookings.foldl (fun sum b => sum + b.guests) 0
    max 0 (restaurant.totalSeats - bookedSeats)

/-- Source `MockDatabase.createBooking` (database.ts lines 1360–1381): reject when
fewer seats are available than requested, otherwise push a booking that is
immediately `confirmed`. The generated `Math.random()` id and `Date` are the
explicit `newId` / `now` arguments. -/
def createBooking (st : MockState) (booking : MockBookingData)
    (newId : String) (now : Nat) : Except String MockBooking × MockState :=
  let available := getAvailableSeats st booking.restaurantId booking.date booking.timeSlot
  if available < booking.guests then
    (.error "Not enough seats available.", st)
  else
    let restaurant := getRestaurant st booking.restaurantId
    let newBooking : MockBooking := {
      id := newId, userId := booking.userId,
      restaurantId := booking.restaurantId, date := booking.date,
      timeSlot := booking.timeSlot, guests := booking.guests,
      status := .confirmed, createdAt := now,
      restaurantName := restaurant.map (fun r => r.name),
      restaurantImage := restaurant.map (fun r => r.image),
      time := some booking.timeSlot }
    (.ok newBooking, { st with bookings := st.bookings ++ [newBooking] })

/-- Source `MockDatabase.cancelBooking` (database.ts lines 1383–1388): set the
found booking's status to `cancelled` — unconditionally, whatever the
current status; no-op when the id is unknown. -/
def cancelBooking (st : MockState) (bookingId : String) : MockState :=
  match setFirst (fun b => decide (b.id = bookingId))
      (fun b => { b with status := .cancelled }) st.bookings with
  | none => st
  | some (_, bookings') => { st with bookings := bookings' }

end MockDatabase

/-! ### `BookingService` fallback paths (booking.service.ts)

Each fallback operates on the `reservex_demo_bookings` localStorage overlay,
passed and returned explicitly; the current user (from
`authService.getStoredUser()`) is the explicit `user` argument. -/

namespace BookingService

/-- Source `BookingService.getLocalBookingsByUserId`. -/
def getLocalBookingsByUserId (localBookings : List Booking) (userId : String) :
    List Booking :=
  localBookings.filter (fun b => decide (b.userId = userId))

/-- Source `BookingService.createBooking`, fallback branch (booking.service.ts
lines 96–152): NO availability check whatsoever — every request for an
existing restaurant by a logged-in user yields a fresh `pending` booking. -/
def createBookingFallback (user : Option User) (localBookings : List Booking)
    (data : CreateBookingData) (now : Nat) :
    Except String (Booking × List Booking) :=
  match user with
  | none => .error "You must be logged in to make a booking"
  | some user =>
    match DEMO_RESTAURANTS.find? (fun r => decide (r.id = data.restaurantId)) with
    | none => .error "Restaurant not found"
    | some restaurant =>
      let newBooking : Booking := {
        id := s!"booking-demo-{now}",
        restaurantId := data.restaurantId, userId := user.id,
        date := data.date, timeSlot := data.timeSlot, seats := data.seats,
        status := .pending,
        customerName := data.customerName,
        customerEmail := data.customerEmail,
        customerPhone := data.customerPhone,
        specialRequests := data.specialRequests,
        createdAt := now, updatedAt := now,
        restaurant := some {
          id := restaurant.id, name := restaurant.name,
          image := restaurant.image, location := restaurant.location } }
      .ok (newBooking, localBookings ++ [newBooking])

/-- Source `BookingService.getMyBookings`, fallback branch (lines 164–198): demo
bookings of the user ++ overlay bookings of the user, sorted newest-first by
`createdAt` (stable, as `Array.prototype.sort` is). -/
def getMyBookingsFallback (user : Option User) (localBookings : List Booking) :
    List Booking :=
  match user with
  | none => []
  | some user =>
    let demoBookings := getDemoBookingsByUserId user.id
    let localOnes := getLocalBookingsByUserId localBookings user.id
    (demoBookings ++ localOnes).mergeSort
      (fun a b => decide (b.createdAt ≤ a.createdAt))

/-- Source `BookingService.getRestaurantBookings`, fallback branch (lines 347–381):
demo ++ overlay, filtered by restaurant and the optional status/date
filters — and, unlike the other list queries, NOT sorted. -/
def getRestaurantBookingsFallback (localBookings : List Booking)
    (restaurantId : String) (statusFilter : Option BookingStatus)
    (dateFilter : Option String) : List Booking :=
  let allBookings := DEMO_BOOKINGS ++ localBookings
  let restaurantBookings :=
    allBookings.filter (fun b => decide (b.restaurantId = restaurantId))
  let restaurantBookings :=
    match statusFilter with
    | some s => restaurantBookings.filter (fun b => decide (b.status = s))
    | none => restaurantBookings
  match dateFilter with
  | some d => restaurantBookings.filter (fun b => decide (b.date = d))
  | none => restaurantBookings

/-- Source `BookingService.cancelBooking`, fallback branch (lines 253–284): set the
found overlay booking's status to `cancelled` — unconditionally, whatever
its current status. -/
def cancelBookingFallback (localBookings : List Booking) (id : String)
    (now : Nat) : Except String (Booking × List Booking) :=
  match setFirst (fun b => decide (b.id = id))
      (fun b => { b with status := .cancelled, updatedAt := now })
      localBookings with
  | none => .error "Booking not found"
  | some (b, bookings') => .ok (b, bookings')

/-- Source `BookingService.updateBookingStatus`, fallback branch (lines 391–419):
set the found overlay booking's status to the requested status —
unconditionally, with no transition table. -/
def updateBookingStatusFallback (localBookings : List Booking) (id : String)
    (status : BookingStatus) (now : Nat) :
    Except String (Booking × List Booking) :=
  match setFirst (fun b => decide (b.id = id))
      (fun b => { b with status := status, updatedAt := now })
      localBookings with
  | none => .error "Booking not found"
  | some (b, bookings') => .ok (b, bookings')

end BookingService

/-! ### `ReviewService` fallback paths (review.service.ts) -/

namespace ReviewService

/-- Source `ReviewService.getLocalReviewsByRestaurantId`. -/
def getLocalReviewsByRestaurantId (localReviews : List Review)
    (restaurantId : String) : List Review :=
  localReviews.filter (fun r => decide (r.restaurantId = restaurantId))

/-- Source `ReviewService.getRestaurantReviews`, fallback branch (lines 141–169):
demo ++ overlay reviews of the restaurant, sorted newest-first by
`createdAt`. -/
def getRestaurantReviewsFallback (localReviews : List Review)
    (restaurantId : String) : List Review :=
  let demoReviews := getDemoReviewsByRestaurantId restaurantId
  let localOnes := getLocalReviewsByRestaurantId localReviews restaurantId
  (demoReviews ++ localOnes).mergeSort
    (fun a b => decide (b.createdAt ≤ a.createdAt))

/-- Source `ReviewService.deleteReview`, fallback branch (lines 278–302): filter the
overlay by id; when nothing was filtered out the id was unknown and an error
is thrown BEFORE the overlay is written back, so the overlay is returned
untouched together with the error message. -/
def deleteReviewFallback (localReviews : List Review) (id : String) :
    List Review × Option String :=
  let filteredReviews := localReviews.filter (fun r => !decide (r.id = id))
  if filteredReviews.length = localReviews.length then
    (localReviews, some "Review not found")
  else
    (filteredReviews, none)

end ReviewService

/-! ### `FavouriteService` fallback paths (favourite.service.ts) -/

namespace FavouriteService

/-- The overlay membership test inside `addFavourite` / `isFavourite`. -/
def localPairExists (localFavourites : List Favourite)
    (userId restaurantId : String) : Bool :=
  localFavourites.any (fun f =>
    decide (f.userId = userId) && decide (f.restaurantId = restaurantId))

/-- Source `FavouriteService.isFavourite`, fallback branch (lines 236–269): demo
favourites first, then the overlay; `false` when nobody is logged in. -/
def isFavouriteFallback (user : Option User) (localFavourites : List Favourite)
    (restaurantId : String) : Bool :=
  match user with
  | none => false
  | some user =>
    if isDemoFavourite user.id restaurantId then true
    else localPairExists localFavourites user.id restaurantId

/-- The fresh `Favourite` record `addFavourite` builds for a user, a
restaurant and a timestamp. -/
def newFavourite (user : User) (restaurantId : String) (now : Nat)
    (restaurant : Restaurant) : Favourite :=
  { id := s!"fav-demo-{now}", userId := user.id,
    restaurantId := restaurantId, createdAt := now,
    restaurant := some {
      id := restaurant.id, name := restaurant.name,
      cuisine := restaurant.cuisine, image := restaurant.image,
      rating := restaurant.rating, location := restaurant.location,
      priceRange := restaurant.priceRange } }

/-- Source `FavouriteService.addFavourite`, fallback branch: error when the pair is
already in the overlay or the restaurant is unknown, otherwise push a fresh
favourite. -/
def addFavouriteFallback (user : Option User) (localFavourites : List Favourite)
    (restaurantId : String) (now : Nat) :
    Except String (Favourite × List Favourite) :=
  match user with
  | none => .error "You must be logged in to add favourites"
  | some user =>
    if localPairExists localFavourites user.id restaurantId then
      .error "Restaurant is already in your favourites"
    else
      match DEMO_RESTAURANTS.find? (fun r => decide (r.id = restaurantId)) with
      | none => .error "Restaurant not found"
      | some restaurant =>
        .ok (newFavourite user restaurantId now restaurant,
          localFavourites ++ [newFavourite user restaurantId now restaurant])

/-- Source `FavouriteService.removeFavourite`, fallback branch: filter the pair out
of the overlay (demo favourites are immutable and NOT touched). -/
def removeFavouriteFallback (user : Option User)
    (localFavourites : List Favourite) (restaurantId : String) :
    Except String (List Favourite) :=
  match user with
  | none => .error "You must be logged in"
  | some user =>
    .ok (localFavourites.filter (fun f =>
      !(decide (f.userId = user.id) && decide (f.restaurantId = restaurantId))))

/-- Source `FavouriteService.toggleFavourite`, fallback branch (lines 283–310):
remove and report `false` when `isFavourite` holds, else add and report
`true`. -/
def toggleFavouriteFallback (user : Option User)
    (localFavourites : List Favourite) (restaurantId : String) (now : Nat) :
    Except String (Bool × List Favourite) :=
  let isFav := isFavouriteFallback user localFavourites restaurantId
  if isFav then
    match removeFavouriteFallback user localFavourites restaurantId with
    | .error e => .error e
    | .ok favs => .ok (false, favs)
  else
    match addFavouriteFallback user localFavourites restaurantId now with
    | .error e => .error e
    | .ok (_, favs) => .ok (true, favs)

end FavouriteService

/-! ### `RestaurantService.getAvailableSeats` fallback path
(restaurant.service.ts) -/

namespace RestaurantService

/-- Source `RestaurantService.getAvailableSeats`, fallback branch (lines 296–325):
unknown restaurant throws `Restaurant not found`; otherwise the result is a
pseudo-random seat count between 50% and 90% of capacity — the bookings are
ignored entirely. `Math.random()` is modelled by the explicit `rand`
argument, reduced modulo the size of the sampled range exactly as
`Math.floor(random * (max - min + 1)) + min` samples it. -/
def getAvailableSeatsFallback (restaurantId : String) (rand : Nat) :
    Except String ℤ :=
  match DEMO_RESTAURANTS.find? (fun r => decide (r.id = restaurantId)) with
  | none => .error "Restaurant not found"
  | some restaurant =>
    let minAvailable : ℤ := ((restaurant.totalSeats : ℚ) * 0.5).floor
    let maxAvailable : ℤ := ((restaurant.totalSeats : ℚ) * 0.9).floor
    .ok (((rand % (maxAvailable - minAvailable + 1).toNat : ℕ) : ℤ) + minAvailable)

end RestaurantService

/-! ### Specification-side definitions

These state, in the spec's own vocabulary (sums over the set of matching
records, means), the quantities the claims talk about. They are deliberately
phrased independently of the `foldl`-style accumulation the code uses. -/

/-- Sum of `seats` over the bookings of `(restaurantId, date, timeSlot)` whose
status is `pending` or `confirmed` (the spec's "active" bookings). -/
def pendingOrConfirmedSeats (bookings : List Booking)
    (restaurantId date timeSlot : String) : ℤ :=
  ((bookings.filter (fun b =>
    decide (b.restaurantId = restaurantId) && decide (b.date = date) &&
    decide (b.timeSlot = timeSlot) &&
    (decide (b.status = .pending) || decide (b.status = .confirmed)))).map
      (fun b => b.seats)).sum

/-- Sum of `guests` over the `MockDatabase` bookings of
`(restaurantId, date, timeSlot)` whose status is `confirmed`. -/
def confirmedOnlyGuests (bookings : List MockBooking)
    (restaurantId date timeSlot : String) : ℤ :=
  ((bookings.filter (fun b =>
    decide (b.restaurantId = restaurantId) && decide (b.date = date) &&
    decide (b.timeSlot = timeSlot) && decide (b.status = .confirmed))).map
      (fun b => b.guests)).sum

/-- Run a list of `MockDatabase.createBooking` requests sequentially, each
with its generated id and timestamp, discarding the per-call results. -/
def runMockCreates (st : MockState) :
    List (MockBookingData × String × Nat) → MockState
  | [] => st
  | (req, newId, now) :: rest =>
    runMockCreates (MockDatabase.createBooking st req newId now).2 rest

/-- Predicate "sorted by `createdAt` descending (newest first)" for bookings. -/
def bookingsSortedDesc (l : List Booking) : Prop :=
  l.Pairwise (fun a b => b.createdAt ≤ a.createdAt)

/-- Predicate "sorted by `createdAt` descending (newest first)" for reviews. -/
def reviewsSortedDesc (l : List Review) : Prop :=
  l.Pairwise (fun a b => b.createdAt ≤ a.createdAt)

/-- The rating-aggregation invariant of the spec, at one restaurant: the
first stored restaurant carrying `restaurantId` (if any) has
`totalReviews = count(reviews)` and
`rating = round(mean(ratings) × 10) / 10`, with `rating = 0` for an empty
review set. -/
def ratingInvariantAt (st : DBState) (restaurantId : String) : Prop :=
  match st.restaurants.find? (fun r => decide (r.id = restaurantId)) with
  | none => True
  | some r =>
    let ratings := (st.reviews.filter (fun v =>
      decide (v.restaurantId = restaurantId))).map (fun v => v.rating)
    r.totalReviews = (ratings.length : ℤ) ∧
    r.rating = (jsRound ((if 0 < ratings.length then
        ratings.sum / (ratings.length : ℚ) else 0) * 10) : ℚ) / 10 ∧
    (ratings.length = 0 → r.rating = 0 ∧ r.totalReviews = 0)

/-- Field-wise equality of two restaurants on everything EXCEPT on the two
derived fields `rating` and `totalReviews`. -/
def sameExceptDerived (a b : Restaurant) : Prop :=
  a.id = b.id ∧ a.name = b.name ∧ a.cuisine = b.cuisine ∧
  a.location = b.location ∧ a.city = b.city ∧ a.division = b.division ∧
  a.country = b.country ∧ a.description = b.description ∧ a.image = b.image ∧
  a.openingTime = b.openingTime ∧ a.closingTime = b.closingTime ∧
  a.totalSeats = b.totalSeats ∧ a.priceRange = b.priceRange ∧
  a.phone = b.phone ∧ a.managerId = b.managerId ∧ a.status = b.status ∧
  a.createdAt = b.createdAt

/-- Frame condition on the restaurant store: either untouched, or exactly
one restaurant — one carrying id `rid` — was replaced, and only in its
derived `rating` / `totalReviews` fields. -/
def restaurantsFrameAt (rid : String) (old new : List Restaurant) : Prop :=
  old = new ∨
  ∃ pre b post b', old = pre ++ b :: post ∧ new = pre ++ b' :: post ∧
    b.id = rid ∧ sameExceptDerived b b'

/-! #### Small example fixtures used by counterexamples and witnesses -/

/-- A logged-in user whose id is the seed dataset's first demo customer
(the id is all the fallback paths ever read). -/
def exCustomer1 : User :=
  { id := "user-customer-1", email := "customer@demo.com",
    name := "Rakib Hassan", role := "customer", profileImage := none,
    phone := none, createdAt := 0 }

/-- A logged-in user whose id is the seed dataset's second demo customer. -/
def exCustomer2 : User :=
  { id := "user-customer-2", email := "customer2@demo.com",
    name := "Fatima Ahmed", role := "customer", profileImage := none,
    phone := none, createdAt := 0 }

/-- A one-restaurant, one-booking `Database` state: capacity 1, with a
single confirmed 2-seat booking already stored for the queried slot. -/
def exOverbookedDB : DBState :=
  { users := [], reviews := [], favourites := [],
    restaurants := [{
      id := "r1", name := "Tiny", cuisine := "Test",
      location := "L", city := "C", division := "D", country := "B",
      description := "", image := "", rating := 0, totalReviews := 0,
      openingTime := "9:00 AM", closingTime := "9:00 PM", totalSeats := 1,
      priceRange := "৳", phone := "", managerId := none, status := "active",
      createdAt := 0 }],
    bookings := [{
      id := "b1", restaurantId := "r1", userId := "u1",
      date := "2026-03-01", timeSlot := "7:00 PM", seats := 2,
      status := .confirmed, customerName := "N", customerEmail := "E",
      customerPhone := "P", specialRequests := none, createdAt := 0,
      updatedAt := 0, restaurant := none }] }

/-- A booking request for 60 seats at the 50-seat demo restaurant
`rest-1`, at a slot with no demo bookings. -/
def exHugeRequest : CreateBookingData :=
  { restaurantId := "rest-1", date := "2026-03-01", timeSlot := "7:00 PM",
    seats := 60, customerName := "N", customerEmail := "E",
    customerPhone := "P", specialRequests := none }

/-- A 30-seat booking request for the same slot of `rest-1`. -/
def exHalfRequest : CreateBookingData :=
  { restaurantId := "rest-1", date := "2026-03-01", timeSlot := "7:00 PM",
    seats := 30, customerName := "N", customerEmail := "E",
    customerPhone := "P", specialRequests := none }

/-- An overlay booking that is already `completed` (a terminal state). -/
def exCompletedBooking : Booking :=
  { id := "bdone", restaurantId := "rest-1", userId := "user-customer-1",
    date := "2026-03-01", timeSlot := "7:00 PM", seats := 2,
    status := .completed, customerName := "N", customerEmail := "E",
    customerPhone := "P", specialRequests := none, createdAt := 10,
    updatedAt := 10, restaurant := none }

/-- An overlay booking for `rest-1` created AFTER the seed dataset's
`rest-1` booking. -/
def exLateBooking : Booking :=
  { id := "blate", restaurantId := "rest-1", userId := "user-customer-1",
    date := "2026-03-01", timeSlot := "7:00 PM", seats := 2,
    status := .pending, customerName := "N", customerEmail := "E",
    customerPhone := "P", specialRequests := none,
    createdAt := 1790000000000, updatedAt := 1790000000000,
    restaurant := none }

/-- A tiny `MockDatabase` state: one 10-seat restaurant, no bookings. -/
def exMockState : MockState :=
  { restaurants := [{
      id := "r1", ownerId := "o1", name := "Tiny",
      division := "D", city := "C", country := "B", address := "A",
      description := "", image := "", cuisine := "Test", totalSeats := 10,
      rating := 0, price := "$", status := "approved", available := true,
      location := "A" }],
    bookings := [] }

/-- An overlay review, used to exercise `deleteReview`. -/
def exReview : Review :=
  { id := "rv1", restaurantId := "rest-1", userId := "user-customer-1",
    userName := "N", userImage := none, rating := 4, comment := "ok",
    createdAt := 7, restaurant := none }

/-- The overlay after one fallback `createBooking` of 30 seats at `rest-1`
(starting from an empty overlay). -/
def exOverlayAfterOneCreate : List Booking :=
  match BookingService.createBookingFallback (some exCustomer1) []
      exHalfRequest 1 with
  | .ok (_, ov) => ov
  | .error _ => []

/-- The overlay after a second fallback `createBooking` of 30 further seats
at the same `(rest-1, 2026-03-01, 7:00 PM)` slot. -/
def exOverlayAfterTwoCreates : List Booking :=
  match BookingService.createBookingFallback (some exCustomer1)
      exOverlayAfterOneCreate exHalfRequest 2 with
  | .ok (_, ov) => ov
  | .error _ => exOverlayAfterOneCreate

/-! ### General lemmas about the helpers -/

/-- A `reduce((sum, x) => sum + g(x), init)` accumulation is `init` plus the
sum of the mapped list. -/
theorem foldl_add_eq_sum {α M : Type*} [AddCommMonoid M] (g : α → M) :
    ∀ (l : List α) (init : M),
      l.foldl (fun sum x => sum + g x) init = init + (l.map g).sum
  | [], init => by simp
  | x :: xs, init => by
    rw [List.foldl_cons, foldl_add_eq_sum g xs, List.map_cons, List.sum_cons,
      add_assoc]

/-- Source `setFirst` fails exactly when no element matches. -/
theorem setFirst_eq_none {α : Type*} (p : α → Bool) (f : α → α) :
    ∀ l : List α, setFirst p f l = none ↔ ∀ x ∈ l, ¬p x = true
  | [] => by simp [setFirst]
  | x :: xs => by
    rw [setFirst]
    by_cases hx : p x = true
    · rw [if_pos hx]
      simp [hx]
    · rw [if_neg hx]
      cases h : setFirst p f xs with
      | none =>
        have ih := (setFirst_eq_none p f xs).mp h
        refine iff_of_true rfl ?_
        intro z hz
        rcases List.mem_cons.mp hz with hz | hz
        · subst hz; exact hx
        · exact ih z hz
      | some v =>
        obtain ⟨z, zs⟩ := v
        refine iff_of_false (by simp) ?_
        intro hall
        have hnone : setFirst p f xs = none :=
          (setFirst_eq_none p f xs).mpr
            (fun w hw => hall w (List.mem_cons_of_mem x hw))
        rw [hnone] at h
        exact Option.noConfusion h

/-- A successful `setFirst` splits the list around the first match: the
prefix has no match, the matched element is replaced by its image, and the
suffix is untouched. -/
theorem setFirst_eq_some {α : Type*} (p : α → Bool) (f : α → α) :
    ∀ {l l' : List α} {y : α}, setFirst p f l = some (y, l') →
      ∃ pre b post, l = pre ++ b :: post ∧ l' = pre ++ f b :: post ∧
        y = f b ∧ p b = true ∧ ∀ x ∈ pre, ¬p x = true
  | [], l', y => by simp [setFirst]
  | x :: xs, l', y => by
    rw [setFirst]
    by_cases hx : p x = true
    · rw [if_pos hx]
      intro h
      rw [Option.some.injEq, Prod.mk.injEq] at h
      exact ⟨[], x, xs, by simp, by simpa using h.2.symm, h.1.symm, hx,
        by simp⟩
    · rw [if_neg hx]
      cases h : setFirst p f xs with
      | none =>
        intro hcon
        exact absurd hcon (by simp)
      | some v =>
        obtain ⟨z, zs⟩ := v
        intro hcons
        rw [Option.some.injEq, Prod.mk.injEq] at hcons
        obtain ⟨pre, b, post, hl, hl', hy, hpb, hpre⟩ := setFirst_eq_some p f h
        refine ⟨x :: pre, b, post, by simp [hl], ?_, ?_, hpb, ?_⟩
        · rw [← hcons.2, hl']; simp
        · rw [← hcons.1]; exact hy
        · intro w hw
          rcases List.mem_cons.mp hw with hw | hw
          · subst hw; exact hx
          · exact hpre w hw

/-- If some element matches, `setFirst` succeeds. -/
theorem setFirst_isSome_of_mem {α : Type*} {p : α → Bool} (f : α → α)
    {l : List α} {b : α} (hb : b ∈ l) (hpb : p b = true) :
    ∃ y l', setFirst p f l = some (y, l') := by
  cases h : setFirst p f l with
  | none =>
    exact absurd hpb (by simpa using (setFirst_eq_none p f l).mp h b hb)
  | some v => exact ⟨v.1, v.2, by simp [h]⟩

/-- After `setFirst`, when `f` preserves the predicate, the first match of
the new list is the image of the old first match. -/
theorem find?_of_setFirst {α : Type*} {p : α → Bool} {f : α → α}
    {l l' : List α} {y : α} (h : setFirst p f l = some (y, l'))
    (hpy : p y = true) : l'.find? p = some y := by
  obtain ⟨pre, b, post, _, hl', hy, _, hpre⟩ := setFirst_eq_some p f h
  subst hl'
  rw [List.find?_append, List.find?_eq_none.mpr hpre, Option.none_or]
  rw [hy] at hpy ⊢
  exact List.find?_cons_of_pos post hpy

/-- A stable sort by a descending `ℕ` key is sorted descending by that key. -/
theorem mergeSort_byKey_sorted {α : Type*} (key : α → ℕ) (l : List α) :
    (l.mergeSort (fun a b => decide (key b ≤ key a))).Pairwise
      (fun a b => key b ≤ key a) := by
  have h := @List.sorted_mergeSort α (fun a b => decide (key b ≤ key a))
    (fun a b c h1 h2 => by
      simp only [decide_eq_true_eq] at h1 h2 ⊢
      exact le_trans h2 h1)
    (fun a b => by
      simp only [Bool.or_eq_true, decide_eq_true_eq]
      exact Nat.le_total (key b) (key a)) l
  simpa using h

/-- Filtering by the negation of `p` leaves nothing that satisfies `p`. -/
theorem any_filter_not {α : Type*} (p : α → Bool) (l : List α) :
    (l.filter (fun x => !p x)).any p = false := by
  rw [Bool.eq_false_iff]
  intro h
  obtain ⟨x, hx, hpx⟩ := List.any_eq_true.mp h
  have := (List.mem_filter.mp hx).2
  simp [hpx] at this

/-- Source `Math.round(0) = 0`. -/
theorem jsRound_zero : jsRound 0 = 0 := by
  rw [jsRound, zero_add, Int.floor_eq_zero_iff]
  constructor <;> norm_num

/-! ### Characterizations of the two availability computations -/

/-- Source `Database.getAvailableSeats` computes `totalSeats` minus the
spec-side active-seat sum — WITHOUT clamping at zero. -/
theorem db_availability_spec (st : DBState) (rid d ts : String) :
    Database.getAvailableSeats st rid d ts =
      match Database.getRestaurantById st rid with
      | none => 0
      | some r => r.totalSeats - pendingOrConfirmedSeats st.bookings rid d ts := by
  rw [Database.getAvailableSeats]
  cases hr : Database.getRestaurantById st rid with
  | none => rfl
  | some r =>
    have hfil :
        st.bookings.filter (fun b =>
          decide (b.restaurantId = rid) && decide (b.date = d) &&
          decide (b.timeSlot = ts) &&
          (decide (b.status = .confirmed) || decide (b.status = .pending))) =
        st.bookings.filter (fun b =>
          decide (b.restaurantId = rid) && decide (b.date = d) &&
          decide (b.timeSlot = ts) &&
          (decide (b.status = .pending) || decide (b.status = .confirmed))) :=
      List.filter_congr (fun b _ => by rw [Bool.or_comm])
    dsimp only
    rw [hfil, foldl_add_eq_sum, pendingOrConfirmedSeats, zero_add]

/-- Source `MockDatabase.getAvailableSeats` computes
`max 0 (totalSeats − Σ guests of CONFIRMED bookings)` — pending bookings are
not counted. -/
theorem mock_availability_spec (mst : MockState) (rid d ts : String) :
    MockDatabase.getAvailableSeats mst rid d ts =
      match MockDatabase.getRestaurant mst rid with
      | none => 0
      | some r => max 0 (r.totalSeats - confirmedOnlyGuests mst.bookings rid d ts) := by
  rw [MockDatabase.getAvailableSeats]
  cases hr : MockDatabase.getRestaurant mst rid with
  | none => rfl
  | some r =>
    dsimp only
    rw [foldl_add_eq_sum, confirmedOnlyGuests, zero_add]

/-- Source `MockDatabase.getAvailableSeats` is never negative. -/
theorem mock_availability_nonneg (mst : MockState) (rid d ts : String) :
    0 ≤ MockDatabase.getAvailableSeats mst rid d ts := by
  rw [mock_availability_spec]
  cases MockDatabase.getRestaurant mst rid with
  | none => exact le_refl 0
  | some r => exact le_max_left 0 _

/-! ### Claim C1 -/

/-- Claim C1, counterexample. The claim says availability is
`max(0, totalSeats − Σ active seats)` and "never negative" for every state
of the booking store; but `Database.getAvailableSeats` does not clamp: on a
store whose one restaurant has capacity 1 and a single confirmed 2-seat
booking for the queried slot it returns `-1`. -/
theorem availability_can_be_negative_cex :
    Database.getAvailableSeats exOverbookedDB "r1" "2026-03-01" "7:00 PM" = -1 := by
  decide

/-- Claim C1, amended. Per implementation: `Database.getAvailableSeats`
returns `totalSeats − Σ seats` over pending-or-confirmed bookings of the key
(unclamped, so it can be negative), `MockDatabase.getAvailableSeats` returns
`max 0 (totalSeats − Σ guests)` over CONFIRMED bookings only (so `≥ 0`), and
both return `0` for an unknown restaurant. -/
theorem availability_formula_amended (st : DBState) (mst : MockState)
    (rid d ts : String) :
    (match Database.getRestaurantById st rid with
     | none => Database.getAvailableSeats st rid d ts = 0
     | some r => Database.getAvailableSeats st rid d ts =
         r.totalSeats - pendingOrConfirmedSeats st.bookings rid d ts) ∧
    (match MockDatabase.getRestaurant mst rid with
     | none => MockDatabase.getAvailableSeats mst rid d ts = 0
     | some r => MockDatabase.getAvailableSeats mst rid d ts =
         max 0 (r.totalSeats - confirmedOnlyGuests mst.bookings rid d ts)) ∧
    0 ≤ MockDatabase.getAvailableSeats mst rid d ts := by
  refine ⟨?_, ?_, mock_availability_nonneg mst rid d ts⟩
  · have h := db_availability_spec st rid d ts
    cases hr : Database.getRestaurantById st rid with
    | none => rw [h, hr]
    | some r => rw [h, hr]
  · have h := mock_availability_spec mst rid d ts
    cases hr : MockDatabase.getRestaurant mst rid with
    | none => rw [h, hr]
    | some r => rw [h, hr]

/-! ### Claim C8 -/

/-- Claim C8, counterexample. The claim says an unknown `restaurantId` makes
the availability query report `NotFound` rather than return a number; but
`Database.getAvailableSeats` (and `MockDatabase.getAvailableSeats`) return
the number `0` for a store that contains no restaurant `no-such-id`. -/
theorem availability_unknown_returns_zero_cex :
    Database.getRestaurantById exOverbookedDB "no-such-id" = none ∧
    Database.getAvailableSeats exOverbookedDB "no-such-id" "2026-03-01" "7:00 PM" = 0 ∧
    MockDatabase.getRestaurant exMockState "no-such-id" = none ∧
    MockDatabase.getAvailableSeats exMockState "no-such-id" "2026-03-01" "7:00 PM" = 0 := by
  refine ⟨rfl, by decide, rfl, by decide⟩

/-- Claim C8, amended. Only the `RestaurantService` fallback reports
`Restaurant not found` for an unknown restaurantId; the two database-layer
`getAvailableSeats` silently return the number `0` instead. -/
theorem availability_unknown_amended (st : DBState) (mst : MockState)
    (rid d ts : String) (rand : Nat) :
    (match Database.getRestaurantById st rid with
     | none => Database.getAvailableSeats st rid d ts = 0
     | some _ => True) ∧
    (match MockDatabase.getRestaurant mst rid with
     | none => MockDatabase.getAvailableSeats mst rid d ts = 0
     | some _ => True) ∧
    (match DEMO_RESTAURANTS.find? (fun r => decide (r.id = rid)) with
     | none => RestaurantService.getAvailableSeatsFallback rid rand =
         .error "Restaurant not found"
     | some _ => True) := by
  refine ⟨?_, ?_, ?_⟩
  · have h := db_availability_spec st rid d ts
    cases hr : Database.getRestaurantById st rid with
    | none => rw [h, hr]
    | some r => trivial
  · have h := mock_availability_spec mst rid d ts
    cases hr : MockDatabase.getRestaurant mst rid with
    | none => rw [h, hr]
    | some r => trivial
  · rw [RestaurantService.getAvailableSeatsFallback]
    cases hr : DEMO_RESTAURANTS.find? (fun r => decide (r.id = rid)) with
    | none => rfl
    | some r => trivial

/-! ### Claim C2 -/

/-- Source `MockDatabase.createBooking` never touches the restaurant table. -/
theorem mock_createBooking_restaurants (st : MockState) (req : MockBookingData)
    (newId : String) (now : Nat) :
    (MockDatabase.createBooking st req newId now).2.restaurants =
      st.restaurants := by
  rw [MockDatabase.createBooking]
  by_cases h : MockDatabase.getAvailableSeats st req.restaurantId req.date
      req.timeSlot < req.guests
  · rw [if_pos h]
  · rw [if_neg h]

/-- The confirmed-guest sum splits over concatenation. -/
theorem confirmedOnlyGuests_append (l₁ l₂ : List MockBooking)
    (rid d ts : String) :
    confirmedOnlyGuests (l₁ ++ l₂) rid d ts =
      confirmedOnlyGuests l₁ rid d ts + confirmedOnlyGuests l₂ rid d ts := by
  simp [confirmedOnlyGuests, List.filter_append]

/-- The confirmed-guest sum of a single booking. -/
theorem confirmedOnlyGuests_singleton (b : MockBooking) (rid d ts : String) :
    confirmedOnlyGuests [b] rid d ts =
      if b.restaurantId = rid ∧ b.date = d ∧ b.timeSlot = ts ∧
          b.status = .confirmed then b.guests else 0 := by
  rw [confirmedOnlyGuests]
  by_cases h : b.restaurantId = rid ∧ b.date = d ∧ b.timeSlot = ts ∧
      b.status = .confirmed
  · obtain ⟨h1, h2, h3, h4⟩ := h
    rw [if_pos ⟨h1, h2, h3, h4⟩]
    simp [List.filter, h1, h2, h3, h4]
  · rw [if_neg h]
    have hp : (decide (b.restaurantId = rid) && decide (b.date = d) &&
        decide (b.timeSlot = ts) && decide (b.status = .confirmed)) = false := by
      by_contra hc
      rw [Bool.not_eq_false, Bool.and_eq_true, Bool.and_eq_true,
        Bool.and_eq_true] at hc
      exact h ⟨of_decide_eq_true hc.1.1.1, of_decide_eq_true hc.1.1.2,
        of_decide_eq_true hc.1.2, of_decide_eq_true hc.2⟩
    simp [List.filter, hp]

/-- One `MockDatabase.createBooking` call preserves the capacity bound of
every key. -/
theorem mock_create_preserves (st : MockState) (req : MockBookingData)
    (newId : String) (now : Nat) (rid d ts : String) (r : MockRestaurant)
    (hr : MockDatabase.getRestaurant st rid = some r)
    (hinv : confirmedOnlyGuests st.bookings rid d ts ≤ r.totalSeats) :
    confirmedOnlyGuests (MockDatabase.createBooking st req newId now).2.bookings
      rid d ts ≤ r.totalSeats := by
  rw [MockDatabase.createBooking]
  by_cases hav : MockDatabase.getAvailableSeats st req.restaurantId req.date
      req.timeSlot < req.guests
  · rw [if_pos hav]; exact hinv
  · rw [if_neg hav]
    dsimp only
    rw [confirmedOnlyGuests_append, confirmedOnlyGuests_singleton]
    by_cases hkey : req.restaurantId = rid ∧ req.date = d ∧ req.timeSlot = ts
    · obtain ⟨h1, h2, h3⟩ := hkey
      rw [if_pos ⟨h1, h2, h3, rfl⟩]
      rw [h1, h2, h3, mock_availability_spec, hr] at hav
      dsimp only at hav ⊢
      have hmax : max 0 (r.totalSeats -
          confirmedOnlyGuests st.bookings rid d ts) =
          r.totalSeats - confirmedOnlyGuests st.bookings rid d ts :=
        max_eq_right (by omega)
      rw [hmax] at hav
      omega
    · rw [if_neg (fun hc => hkey ⟨hc.1, hc.2.1, hc.2.2.1⟩)]
      omega

/-- Claim C2, amended. The claim fails for the service layer (counterexample
below): `BookingService.createBooking`'s fallback performs no capacity check
at all, and `Database.createBooking` unconditionally appends. The nearby
true statement: for `MockDatabase.createBooking` — the one implementation
that does check — any sequence of sequential calls keeps the summed
`confirmed` guests of every `(restaurantId, date, timeSlot)` key within the
restaurant's `totalSeats`, provided the bound held initially. -/
theorem mock_createBooking_no_overbooking (st : MockState)
    (reqs : List (MockBookingData × String × Nat)) (rid d ts : String)
    (r : MockRestaurant)
    (hr : MockDatabase.getRestaurant st rid = some r)
    (hinv : confirmedOnlyGuests st.bookings rid d ts ≤ r.totalSeats) :
    confirmedOnlyGuests (runMockCreates st reqs).bookings rid d ts ≤
      r.totalSeats := by
  induction reqs generalizing st with
  | nil => exact hinv
  | cons hd tl ih =>
    obtain ⟨req, newId, now⟩ := hd
    rw [runMockCreates]
    refine ih (MockDatabase.createBooking st req newId now).2 ?_ ?_
    · rw [MockDatabase.getRestaurant, mock_createBooking_restaurants]
      exact hr
    · exact mock_create_preserves st req newId now rid d ts r hr hinv

/-- Claim C2, witness. A 10-seat restaurant, a 4-seat create followed by a
9-seat create (which the mock rejects): the confirmed sum stays `≤ 10`. -/
theorem mock_createBooking_no_overbooking_witness :
    confirmedOnlyGuests (runMockCreates exMockState
      [({ userId := "u1", restaurantId := "r1", date := "2026-03-01",
          timeSlot := "7:00 PM", guests := 4 }, "id1", 1),
       ({ userId := "u1", restaurantId := "r1", date := "2026-03-01",
          timeSlot := "7:00 PM", guests := 9 }, "id2", 2)]).bookings
      "r1" "2026-03-01" "7:00 PM" ≤
      ({ id := "r1", ownerId := "o1", name := "Tiny", division := "D",
         city := "C", country := "B", address := "A", description := "",
         image := "", cuisine := "Test", totalSeats := 10, rating := 0,
         price := "$", status := "approved", available := true,
         location := "A" } : MockRestaurant).totalSeats :=
  mock_createBooking_no_overbooking exMockState _ "r1" "2026-03-01" "7:00 PM"
    _ rfl (by decide)

/-- Claim C2, counterexample. Two sequential 30-seat fallback `createBooking`
calls against the 50-seat `rest-1` both succeed, leaving 60 active seats for
one slot — the summed active seats exceed `totalSeats`. -/
theorem service_overbooking_cex :
    (DEMO_RESTAURANTS.find? (fun r => decide (r.id = "rest-1"))).map
      (fun r => r.totalSeats) = some 50 ∧
    (BookingService.createBookingFallback (some exCustomer1) []
      exHalfRequest 1).isOk = true ∧
    (BookingService.createBookingFallback (some exCustomer1)
      exOverlayAfterOneCreate exHalfRequest 2).isOk = true ∧
    pendingOrConfirmedSeats exOverlayAfterTwoCreates
      "rest-1" "2026-03-01" "7:00 PM" = 60 := by
  exact ⟨by decide, rfl, rfl, by decide⟩

/-! ### Claim C3 -/

/-- Claim C3, counterexample. A request for 60 seats at the 50-seat `rest-1`
(zero active seats at that slot in the seed data and an empty overlay)
should fail `CapacityExceeded` per the claim, but the fallback
`createBooking` succeeds — it never consults availability at all. -/
theorem createBooking_no_capacity_check_cex :
    exHugeRequest.seats = 60 ∧
    (DEMO_RESTAURANTS.find? (fun r =>
      decide (r.id = exHugeRequest.restaurantId))).map
      (fun r => r.totalSeats) = some 50 ∧
    pendingOrConfirmedSeats DEMO_BOOKINGS exHugeRequest.restaurantId
      exHugeRequest.date exHugeRequest.timeSlot = 0 ∧
    (BookingService.createBookingFallback (some exCustomer1) []
      exHugeRequest 99).isOk = true := by
  exact ⟨rfl, by decide, by decide, rfl⟩

/-- Claim C3, amended. The fallback `BookingService.createBooking` performs no
capacity check: for a logged-in user it either fails `Restaurant not found`
(unknown restaurant) or returns a fresh booking with status `pending` and
`createdAt = updatedAt` appended to the overlay, for ANY requested seat
count. `MockDatabase.createBooking` does check, but rejects with the bare
error string `Not enough seats available.` (no available count attached) and
creates the booking with status `confirmed`, not `pending`. -/
theorem createBooking_behavior_amended (u : User) (overlay : List Booking)
    (data : CreateBookingData) (now : Nat) (mst : MockState)
    (req : MockBookingData) (newId : String) (mnow : Nat) :
    (match DEMO_RESTAURANTS.find? (fun r => decide (r.id = data.restaurantId)) with
     | none => BookingService.createBookingFallback (some u) overlay data now =
         .error "Restaurant not found"
     | some _ => ∃ b : Booking,
         BookingService.createBookingFallback (some u) overlay data now =
           .ok (b, overlay ++ [b]) ∧
         b.status = .pending ∧ b.createdAt = b.updatedAt ∧
         b.seats = data.seats) ∧
    (if MockDatabase.getAvailableSeats mst req.restaurantId req.date
        req.timeSlot < req.guests then
       (MockDatabase.createBooking mst req newId mnow).1 =
         .error "Not enough seats available."
     else ∃ b : MockBooking,
       (MockDatabase.createBooking mst req newId mnow).1 = .ok b ∧
       b.status = .confirmed) := by
  constructor
  · rw [BookingService.createBookingFallback]
    cases h : DEMO_RESTAURANTS.find? (fun r => decide (r.id = data.restaurantId)) with
    | none => rfl
    | some rst => exact ⟨_, rfl, rfl, rfl, rfl⟩
  · rw [MockDatabase.createBooking]
    by_cases h : MockDatabase.getAvailableSeats mst req.restaurantId req.date
        req.timeSlot < req.guests
    · rw [if_pos h, if_pos h]
    · rw [if_neg h, if_neg h]
      exact ⟨_, rfl, rfl⟩

/-! ### Claim C4 -/

/-- Claim C4, counterexample. `completed` is terminal, so per the claim both
transition operations must fail `InvalidTransition`; instead, on an overlay
holding one `completed` booking, `cancelBooking` succeeds and sets
`cancelled`, and `updateBookingStatus` happily moves it to `confirmed`. -/
theorem cancel_completed_succeeds_cex :
    exCompletedBooking.status = .completed ∧
    BookingService.cancelBookingFallback [exCompletedBooking] "bdone" 11 =
      .ok ({ exCompletedBooking with status := .cancelled, updatedAt := 11 },
        [{ exCompletedBooking with status := .cancelled, updatedAt := 11 }]) ∧
    BookingService.updateBookingStatusFallback [exCompletedBooking] "bdone"
      .confirmed 12 =
      .ok ({ exCompletedBooking with status := .confirmed, updatedAt := 12 },
        [{ exCompletedBooking with status := .confirmed, updatedAt := 12 }]) := by
  exact ⟨rfl, rfl, rfl⟩

/-- Claim C4, amended. No transition guard exists anywhere: when the id is
present, `cancelBooking` always succeeds and sets `cancelled`,
`updateBookingStatus` always succeeds and sets the requested status —
whatever the current status, terminal or not — and `MockDatabase`'s
`cancelBooking` likewise overwrites unconditionally; the only failure mode
is `Booking not found` for an absent id. -/
theorem transitions_unguarded_amended (overlay : List Booking) (id : String)
    (now : Nat) (s : BookingStatus) (mst : MockState) (bid : String) :
    (match overlay.find? (fun b => decide (b.id = id)) with
     | none =>
       BookingService.cancelBookingFallback overlay id now =
         .error "Booking not found" ∧
       BookingService.updateBookingStatusFallback overlay id s now =
         .error "Booking not found"
     | some _ =>
       (∃ b ov, BookingService.cancelBookingFallback overlay id now =
          .ok (b, ov) ∧ b.status = .cancelled) ∧
       (∃ b ov, BookingService.updateBookingStatusFallback overlay id s now =
          .ok (b, ov) ∧ b.status = s)) ∧
    (match mst.bookings.find? (fun b => decide (b.id = bid)) with
     | none => MockDatabase.cancelBooking mst bid = mst
     | some _ => ∃ b ov,
         setFirst (fun b => decide (b.id = bid))
           (fun b => { b with status := BookingStatus.cancelled })
           mst.bookings = some (b, ov) ∧
         (MockDatabase.cancelBooking mst bid).bookings = ov ∧
         b.status = .cancelled) := by
  constructor
  · cases h : overlay.find? (fun b => decide (b.id = id)) with
    | none =>
      have hall := List.find?_eq_none.mp h
      constructor
      · rw [BookingService.cancelBookingFallback,
          (setFirst_eq_none _ _ overlay).mpr hall]
      · rw [BookingService.updateBookingStatusFallback,
          (setFirst_eq_none _ _ overlay).mpr hall]
    | some bf =>
      have hmem : bf ∈ overlay := List.mem_of_find?_eq_some h
      have hpbf := List.find?_some h
      constructor
      · obtain ⟨y, l', hs⟩ := setFirst_isSome_of_mem
          (p := fun b => decide (b.id = id))
          (fun b => { b with
            status := BookingStatus.cancelled, updatedAt := now }) hmem hpbf
        obtain ⟨pre, b, post, _, _, hy, _, _⟩ := setFirst_eq_some _ _ hs
        exact ⟨y, l', by rw [BookingService.cancelBookingFallback, hs],
          by rw [hy]⟩
      · obtain ⟨y, l', hs⟩ := setFirst_isSome_of_mem
          (p := fun b => decide (b.id = id))
          (fun b => { b with status := s, updatedAt := now }) hmem hpbf
        obtain ⟨pre, b, post, _, _, hy, _, _⟩ := setFirst_eq_some _ _ hs
        exact ⟨y, l', by rw [BookingService.updateBookingStatusFallback, hs],
          by rw [hy]⟩
  · cases h : mst.bookings.find? (fun b => decide (b.id = bid)) with
    | none =>
      have hall := List.find?_eq_none.mp h
      rw [MockDatabase.cancelBooking,
        (setFirst_eq_none _ _ mst.bookings).mpr hall]
    | some bf =>
      have hmem : bf ∈ mst.bookings := List.mem_of_find?_eq_some h
      have hpbf := List.find?_some h
      obtain ⟨y, l', hs⟩ := setFirst_isSome_of_mem
        (p := fun b => decide (b.id = bid))
        (fun b => { b with status := BookingStatus.cancelled }) hmem hpbf
      obtain ⟨pre, b, post, _, _, hy, _, _⟩ := setFirst_eq_some _ _ hs
      exact ⟨y, l', hs, by rw [MockDatabase.cancelBooking, hs], by rw [hy]⟩

/-! ### Claim C10 -/

/-- Claim C10. The fallback `deleteReview` with an id absent from the local
overlay returns the error `Review not found` together with the overlay
EXACTLY as it was (the write-back is never reached); when the id is present
no error is produced. -/
theorem deleteReview_notfound_unchanged (overlay : List Review) (id : String) :
    match overlay.find? (fun r => decide (r.id = id)) with
    | none => ReviewService.deleteReviewFallback overlay id =
        (overlay, some "Review not found")
    | some _ => (ReviewService.deleteReviewFallback overlay id).2 = none := by
  cases h : overlay.find? (fun r => decide (r.id = id)) with
  | none =>
    have hall := List.find?_eq_none.mp h
    have hfil : overlay.filter (fun r => !decide (r.id = id)) = overlay :=
      List.filter_eq_self.mpr (fun a ha => by simpa using hall a ha)
    simp [ReviewService.deleteReviewFallback, hfil]
  | some v =>
    have hlt : (overlay.filter (fun r => !decide (r.id = id))).length <
        overlay.length := by
      rw [List.length_filter_lt_length_iff_exists]
      exact ⟨v, List.mem_of_find?_eq_some h,
        by simpa using List.find?_some h⟩
    simp only [ReviewService.deleteReviewFallback]
    rw [if_neg (by omega)]

/-! ### Claims C5 and C9 -/

/-- Source `updateRestaurantRating` never touches the other four collections. -/
theorem updateRestaurantRating_components (st : DBState) (rid : String) :
    (Database.updateRestaurantRating st rid).users = st.users ∧
    (Database.updateRestaurantRating st rid).bookings = st.bookings ∧
    (Database.updateRestaurantRating st rid).reviews = st.reviews ∧
    (Database.updateRestaurantRating st rid).favourites = st.favourites := by
  cases h : setFirst (fun r => decide (r.id = rid))
      (Database.ratingUpdater st rid) st.restaurants with
  | none =>
    unfold Database.updateRestaurantRating
    rw [h]
    exact ⟨rfl, rfl, rfl, rfl⟩
  | some v =>
    obtain ⟨y, rs'⟩ := v
    unfold Database.updateRestaurantRating
    rw [h]
    exact ⟨rfl, rfl, rfl, rfl⟩

/-- Source `updateRestaurantRating` establishes the spec's rating invariant for the
updated restaurant, relative to the state's current review set. -/
theorem updateRestaurantRating_spec (st : DBState) (rid : String) :
    ratingInvariantAt (Database.updateRestaurantRating st rid) rid := by
  cases h : setFirst (fun r => decide (r.id = rid))
      (Database.ratingUpdater st rid) st.restaurants with
  | none =>
    have hres : Database.updateRestaurantRating st rid = st := by
      unfold Database.updateRestaurantRating
      rw [h]
    rw [ratingInvariantAt, hres,
      List.find?_eq_none.mpr ((setFirst_eq_none _ _ _).mp h)]
    trivial
  | some v =>
    obtain ⟨y, rs'⟩ := v
    have hres : Database.updateRestaurantRating st rid =
        { st with restaurants := rs' } := by
      unfold Database.updateRestaurantRating
      rw [h]
    obtain ⟨pre, b, post, hl, hl', hy, hpb, hpre⟩ := setFirst_eq_some _ _ h
    have hpy : (fun r => decide (r.id = rid)) y = true := by
      rw [hy]
      exact hpb
    rw [ratingInvariantAt, hres, find?_of_setFirst h hpy]
    rw [hy]
    unfold Database.ratingUpdater Database.getReviewsByRestaurant
    dsimp only
    have hlen : ((st.reviews.filter (fun v =>
        decide (v.restaurantId = rid))).map (fun v => v.rating)).length =
        (st.reviews.filter (fun v => decide (v.restaurantId = rid))).length :=
      List.length_map _ _
    have hsum : ((st.reviews.filter (fun v =>
        decide (v.restaurantId = rid))).map (fun v => v.rating)).sum =
        (st.reviews.filter (fun v => decide (v.restaurantId = rid))).foldl
          (fun sum v => sum + v.rating) 0 := by
      rw [foldl_add_eq_sum, zero_add]
    refine ⟨by rw [hlen], by rw [hlen, hsum], ?_⟩
    intro h0
    rw [hlen] at h0
    constructor
    · rw [if_neg (by omega), zero_mul, jsRound_zero]
      norm_num
    · rw [h0]
      norm_num

/-- Source `updateRestaurantRating` replaces at most the first restaurant carrying
the id, and only its `rating` / `totalReviews` fields. -/
theorem updateRestaurantRating_frame (st : DBState) (rid : String) :
    restaurantsFrameAt rid st.restaurants
      (Database.updateRestaurantRating st rid).restaurants := by
  cases h : setFirst (fun r => decide (r.id = rid))
      (Database.ratingUpdater st rid) st.restaurants with
  | none =>
    left
    unfold Database.updateRestaurantRating
    rw [h]
  | some v =>
    obtain ⟨y, rs'⟩ := v
    obtain ⟨pre, b, post, hl, hl', hy, hpb, hpre⟩ := setFirst_eq_some _ _ h
    right
    refine ⟨pre, b, post, Database.ratingUpdater st rid b, hl, ?_,
      of_decide_eq_true hpb, ?_⟩
    · unfold Database.updateRestaurantRating
      rw [h]
      exact hl'
    · unfold sameExceptDerived Database.ratingUpdater
      exact ⟨rfl, rfl, rfl, rfl, rfl, rfl, rfl, rfl, rfl, rfl, rfl, rfl, rfl,
        rfl, rfl, rfl, rfl⟩

/-- Claim C5. After `createReview` (and after a successful `deleteReview`),
the restaurant owning the review satisfies
`totalReviews = count(reviews)` and `rating = round(mean(ratings) × 10)/10`
over its complete current review set, with `rating = totalReviews = 0` for
an empty set; an unknown review id leaves `deleteReview` returning `false`
with the state untouched. -/
theorem rating_aggregation_correct (st : DBState) (rv : ReviewData)
    (now : Nat) (id : String) :
    ratingInvariantAt (Database.createReview st rv now).2 rv.restaurantId ∧
    (match st.reviews.find? (fun r => decide (r.id = id)) with
     | none => Database.deleteReview st id = (false, st)
     | some v => ratingInvariantAt (Database.deleteReview st id).2
         v.restaurantId) := by
  constructor
  · exact updateRestaurantRating_spec _ _
  · cases h : st.reviews.find? (fun r => decide (r.id = id)) with
    | none =>
      unfold Database.deleteReview
      rw [h]
    | some v =>
      have hres : (Database.deleteReview st id).2 =
          Database.updateRestaurantRating
            { st with reviews := st.reviews.filter (fun r => !decide (r.id = id)) }
            v.restaurantId := by
        unfold Database.deleteReview
        rw [h]
      rw [hres]
      exact updateRestaurantRating_spec _ _

/-- Source `createReview`'s successor state is a rating update of a state that
shares every collection with the input except the appended review list. -/
theorem createReview_snd (st : DBState) (rv : ReviewData) (now : Nat) :
    ∃ st1 : DBState,
      (Database.createReview st rv now).2 =
        Database.updateRestaurantRating st1 rv.restaurantId ∧
      st1.restaurants = st.restaurants ∧ st1.users = st.users ∧
      st1.bookings = st.bookings ∧ st1.favourites = st.favourites :=
  ⟨_, rfl, rfl, rfl, rfl, rfl⟩

/-- Source `deleteReview`'s successor state (when the review exists) is a rating
update of a state that shares every collection with the input except the
filtered review list. -/
theorem deleteReview_snd (st : DBState) (id : String) (v : Review)
    (h : st.reviews.find? (fun r => decide (r.id = id)) = some v) :
    ∃ st1 : DBState,
      (Database.deleteReview st id).2 =
        Database.updateRestaurantRating st1 v.restaurantId ∧
      st1.restaurants = st.restaurants ∧ st1.users = st.users ∧
      st1.bookings = st.bookings ∧ st1.favourites = st.favourites := by
  refine ⟨{ st with
    reviews := st.reviews.filter (fun r => !decide (r.id = id)) },
    ?_, rfl, rfl, rfl, rfl⟩
  unfold Database.deleteReview
  rw [h]

/-- Claim C9. The rating recomputation triggered by `createReview` /
`deleteReview` replaces at most the one restaurant owning the review —
touching only its `rating` and `totalReviews` fields — and leaves every
other restaurant, and the user/booking/favourite collections, unchanged. -/
theorem rating_update_frame (st : DBState) (rv : ReviewData) (now : Nat)
    (id : String) :
    (restaurantsFrameAt rv.restaurantId st.restaurants
       ((Database.createReview st rv now).2).restaurants ∧
     ((Database.createReview st rv now).2).users = st.users ∧
     ((Database.createReview st rv now).2).bookings = st.bookings ∧
     ((Database.createReview st rv now).2).favourites = st.favourites) ∧
    (match st.reviews.find? (fun r => decide (r.id = id)) with
     | none => Database.deleteReview st id = (false, st)
     | some v =>
       restaurantsFrameAt v.restaurantId st.restaurants
         ((Database.deleteReview st id).2).restaurants ∧
       ((Database.deleteReview st id).2).users = st.users ∧
       ((Database.deleteReview st id).2).bookings = st.bookings ∧
       ((Database.deleteReview st id).2).favourites = st.favourites) := by
  constructor
  · obtain ⟨st1, he, hrs, hu, hb, hf⟩ := createReview_snd st rv now
    rw [he, ← hrs, ← hu, ← hb, ← hf]
    refine ⟨updateRestaurantRating_frame _ _, ?_, ?_, ?_⟩
    · exact (updateRestaurantRating_components _ _).1
    · exact (updateRestaurantRating_components _ _).2.1
    · exact (updateRestaurantRating_components _ _).2.2.2
  · cases h : st.reviews.find? (fun r => decide (r.id = id)) with
    | none =>
      unfold Database.deleteReview
      rw [h]
    | some v =>
      obtain ⟨st1, he, hrs, hu, hb, hf⟩ := deleteReview_snd st id v h
      rw [he, ← hrs, ← hu, ← hb, ← hf]
      refine ⟨updateRestaurantRating_frame _ _, ?_, ?_, ?_⟩
      · exact (updateRestaurantRating_components _ _).1
      · exact (updateRestaurantRating_components _ _).2.1
      · exact (updateRestaurantRating_components _ _).2.2.2

/-! ### Claim C6 -/

/-- Removing the pair from the overlay leaves no overlay pair behind. -/
theorem localPairExists_filter_out (l : List Favourite) (uid rid : String) :
    FavouriteService.localPairExists
      (l.filter (fun f =>
        !(decide (f.userId = uid) && decide (f.restaurantId = rid))))
      uid rid = false := by
  rw [FavouriteService.localPairExists]
  exact any_filter_not _ l

/-- Appending a favourite for the pair makes the overlay pair present. -/
theorem localPairExists_append_new (l : List Favourite) (f : Favourite)
    (uid rid : String) (h1 : f.userId = uid) (h2 : f.restaurantId = rid) :
    FavouriteService.localPairExists (l ++ [f]) uid rid = true := by
  rw [FavouriteService.localPairExists, List.any_append]
  simp [h1, h2]

/-- When the user's pair is NOT a demo favourite, `isFavourite` is exactly
overlay membership. -/
theorem isFavouriteFallback_eq_local (u : User) (ov : List Favourite)
    (rid : String) (hdemo : isDemoFavourite u.id rid = false) :
    FavouriteService.isFavouriteFallback (some u) ov rid =
      FavouriteService.localPairExists ov u.id rid := by
  simp [FavouriteService.isFavouriteFallback, hdemo]

/-- Claim C6, amended. The double-toggle involution DOES hold whenever the
pair is not one of the immutable demo-tier favourites (and the restaurant
exists): the two calls return `{¬m}` then `{m}` for initial overlay
membership `m`, and the final membership equals the initial membership. (For
a demo-tier favourite the claim fails — see the counterexample — because
`removeFavourite` can only delete overlay records, never demo records.) -/
theorem toggle_involution_amended (u : User) (overlay : List Favourite)
    (rid : String) (n₁ n₂ : Nat)
    (hdemo : isDemoFavourite u.id rid = false)
    (hrest : (DEMO_RESTAURANTS.find? (fun r => decide (r.id = rid))).isSome
      = true) :
    ∃ ov₁ ov₂,
      FavouriteService.toggleFavouriteFallback (some u) overlay rid n₁ =
        .ok (!FavouriteService.localPairExists overlay u.id rid, ov₁) ∧
      FavouriteService.toggleFavouriteFallback (some u) ov₁ rid n₂ =
        .ok (FavouriteService.localPairExists overlay u.id rid, ov₂) ∧
      FavouriteService.isFavouriteFallback (some u) ov₂ rid =
        FavouriteService.isFavouriteFallback (some u) overlay rid := by
  obtain ⟨rst, hrst⟩ := Option.isSome_iff_exists.mp hrest
  cases hm : FavouriteService.localPairExists overlay u.id rid with
  | false =>
    refine ⟨overlay ++ [FavouriteService.newFavourite u rid n₁ rst],
      (overlay ++ [FavouriteService.newFavourite u rid n₁ rst]).filter
        (fun f =>
          !(decide (f.userId = u.id) && decide (f.restaurantId = rid))),
      ?_, ?_, ?_⟩
    · simp only [FavouriteService.toggleFavouriteFallback,
        isFavouriteFallback_eq_local u overlay rid hdemo, hm,
        Bool.false_eq_true, if_false, FavouriteService.addFavouriteFallback,
        hrst, Bool.not_false]
    · simp only [FavouriteService.toggleFavouriteFallback,
        isFavouriteFallback_eq_local u _ rid hdemo,
        localPairExists_append_new overlay
          (FavouriteService.newFavourite u rid n₁ rst) u.id rid rfl rfl,
        if_true, FavouriteService.removeFavouriteFallback]
    · rw [isFavouriteFallback_eq_local u _ rid hdemo,
        isFavouriteFallback_eq_local u overlay rid hdemo, hm,
        localPairExists_filter_out]
  | true =>
    refine ⟨overlay.filter (fun f =>
        !(decide (f.userId = u.id) && decide (f.restaurantId = rid))),
      overlay.filter (fun f =>
        !(decide (f.userId = u.id) && decide (f.restaurantId = rid))) ++
        [FavouriteService.newFavourite u rid n₂ rst],
      ?_, ?_, ?_⟩
    · simp only [FavouriteService.toggleFavouriteFallback,
        isFavouriteFallback_eq_local u overlay rid hdemo, hm, if_true,
        FavouriteService.removeFavouriteFallback, Bool.not_true]
    · simp only [FavouriteService.toggleFavouriteFallback,
        isFavouriteFallback_eq_local u _ rid hdemo,
        localPairExists_filter_out, Bool.false_eq_true, if_false,
        FavouriteService.addFavouriteFallback, hrst]
    · rw [isFavouriteFallback_eq_local u _ rid hdemo,
        isFavouriteFallback_eq_local u overlay rid hdemo, hm,
        localPairExists_append_new _
          (FavouriteService.newFavourite u rid n₂ rst) u.id rid rfl rfl]

/-- Claim C6, witness. The second demo customer has not favourited `rest-1`:
starting from an empty overlay the two toggles return `{true}` then
`{false}` and membership is restored. -/
theorem toggle_involution_amended_witness :
    isDemoFavourite exCustomer2.id "rest-1" = false ∧
    ∃ ov₁ ov₂,
      FavouriteService.toggleFavouriteFallback (some exCustomer2) [] "rest-1"
        1 = .ok (!FavouriteService.localPairExists [] exCustomer2.id "rest-1",
          ov₁) ∧
      FavouriteService.toggleFavouriteFallback (some exCustomer2) ov₁ "rest-1"
        2 = .ok (FavouriteService.localPairExists [] exCustomer2.id "rest-1",
          ov₂) ∧
      FavouriteService.isFavouriteFallback (some exCustomer2) ov₂ "rest-1" =
        FavouriteService.isFavouriteFallback (some exCustomer2) [] "rest-1" :=
  ⟨by decide, toggle_involution_amended exCustomer2 [] "rest-1" 1 2
    (by decide) (by decide)⟩

/-- Claim C6, counterexample. `user-customer-1` has `rest-1` among the
demo-tier favourites. The claim demands the second toggle return
`{isFavourite: true}`; instead BOTH toggles return `{isFavourite: false}`
(each "removes" from the overlay, which never held the pair), and the pair
stays favourited throughout. -/
theorem toggle_demo_favourite_cex :
    FavouriteService.isFavouriteFallback (some exCustomer1) [] "rest-1" =
      true ∧
    FavouriteService.toggleFavouriteFallback (some exCustomer1) [] "rest-1" 1 =
      .ok (false, []) ∧
    FavouriteService.toggleFavouriteFallback (some exCustomer1) [] "rest-1" 2 =
      .ok (false, []) ∧
    FavouriteService.isFavouriteFallback (some exCustomer1) [] "rest-1" =
      true := by
  exact ⟨rfl, rfl, rfl, rfl⟩

/-! ### Claim C7 -/

/-- Claim C7, counterexample. The claim requires every fallback list query to
be sorted by `createdAt` descending; but `getRestaurantBookings` does not
sort: with one overlay booking newer than the seed booking of `rest-1`, the
result comes back oldest-first. -/
theorem restaurant_bookings_unsorted_cex :
    (BookingService.getRestaurantBookingsFallback [exLateBooking] "rest-1"
      none none).map (fun b => b.createdAt) =
      [1707523200000, 1790000000000] ∧
    ¬ bookingsSortedDesc
      (BookingService.getRestaurantBookingsFallback [exLateBooking] "rest-1"
        none none) := by
  constructor
  · rfl
  · intro h
    have h2 : ((BookingService.getRestaurantBookingsFallback [exLateBooking]
        "rest-1" none none).map (fun b => b.createdAt)).Pairwise
        (fun a b => b ≤ a) := List.pairwise_map.mpr h
    rw [show (BookingService.getRestaurantBookingsFallback [exLateBooking]
        "rest-1" none none).map (fun b => b.createdAt) =
        [1707523200000, 1790000000000] from rfl] at h2
    have h3 := (List.pairwise_cons.mp h2).1 1790000000000 (by simp)
    omega

/-- Claim C7, amended. `getMyBookings` and `getRestaurantReviews` indeed
return the concatenation of the matching seed records and the matching
overlay records, sorted by `createdAt` descending; `getRestaurantBookings`
returns that concatenation UNSORTED (seed first, overlay second). None of
them de-duplicates by id — the result is always a permutation of the plain
concatenation. -/
theorem fallback_list_queries_amended (u : User) (overlay : List Booking)
    (rid : String) (rOverlay : List Review) :
    (BookingService.getMyBookingsFallback (some u) overlay).Perm
      (getDemoBookingsByUserId u.id ++
        BookingService.getLocalBookingsByUserId overlay u.id) ∧
    bookingsSortedDesc (BookingService.getMyBookingsFallback (some u)
      overlay) ∧
    (ReviewService.getRestaurantReviewsFallback rOverlay rid).Perm
      (getDemoReviewsByRestaurantId rid ++
        ReviewService.getLocalReviewsByRestaurantId rOverlay rid) ∧
    reviewsSortedDesc (ReviewService.getRestaurantReviewsFallback rOverlay
      rid) ∧
    BookingService.getRestaurantBookingsFallback overlay rid none none =
      (DEMO_BOOKINGS ++ overlay).filter
        (fun b => decide (b.restaurantId = rid)) := by
  refine ⟨?_, ?_, ?_, ?_, rfl⟩
  · exact List.mergeSort_perm _ _
  · exact mergeSort_byKey_sorted (fun b : Booking => b.createdAt) _
  · exact List.mergeSort_perm _ _
  · exact mergeSort_byKey_sorted (fun r : Review => r.createdAt) _

end ReserveX
